import Mathlib

/-!
Verification of the AI Subject Explorer backend
(src/backend/app/main.py) against its natural-language specification.

The shallow embedding below translates the session/navigation logic of
the FastAPI application into Lean. External effects are made explicit:
the OpenAI client availability is a boolean parameter, the raw outcome
of each OpenAI API call is an oracle argument of an `APIResult` type,
and the global `sessions` dictionary is threaded through the endpoint
functions as an explicit store of type `String -> Option SessionData`.
Each endpoint returns the (possibly updated) store together with either
an HTTP error (status code plus machine-readable error code) or the
HTTP success status and the response body, mirroring the order in which
the Python code raises, mutates and returns.
-/

/-- One element of a parsed JSON list, as the Python code sees it:
either a string, or any non-string value (which the list comprehensions
filter out via the isinstance check). -/
inductive PyVal where
  | str (s : String)
  | other
deriving DecidableEq, Repr

/-- Whitespace predicate used to model the Python str.strip method. -/
def isSpaceChar (c : Char) : Bool := c.isWhitespace

/-- Strip leading and trailing whitespace characters from a character
list; the model of what Python str.strip does to the characters of a
string. -/
def stripChars (l : List Char) : List Char :=
  ((l.dropWhile isSpaceChar).reverse.dropWhile isSpaceChar).reverse

/-- Model of the Python str.strip method. -/
def pyStrip (s : String) : String := ⟨stripChars s.data⟩

/-- Model of the list comprehension
[str(item).strip() for item in lst if isinstance(item, str) and item.strip()]
used by all three AI helper functions to sanitize menu-item lists:
keep only string entries whose stripped form is non-empty, and strip
them. -/
def sanitizeItems (l : List PyVal) : List String :=
  l.filterMap fun v =>
    match v with
    | .str s => if pyStrip s = "" then none else some (pyStrip s)
    | .other => none

/-- The Python exception classes the endpoint handlers distinguish by
isinstance checks (ConnectionRefusedError, ConnectionAbortedError,
ConnectionError, ValueError, RuntimeError). -/
inductive PyExc where
  | connectionRefused
  | connectionAborted
  | connection
  | value
  | runtime
deriving DecidableEq, Repr

/-- Outcome of one raw OpenAI chat-completions call, as the AI helper
functions observe it: a successful completion (whose message content is
None/empty, modelled by none, or a parsed JSON payload of type alpha),
a completion whose content is not valid JSON, or one of the OpenAI
exception classes the helpers catch. -/
inductive APIResult (α : Type) where
  | success (content : Option α)
  | badJson
  | authError
  | rateLimitError
  | apiConnectionError
  | apiError
deriving DecidableEq, Repr

/-- The parsed JSON payload shape for the main-menu call: a value for
the categories key (none when the key is missing or not a list), and a
value for the max_menu_depth key (none when missing or not an int). -/
structure MainMenuJson where
  categories : Option (List PyVal)
  max_menu_depth : Option Int
deriving DecidableEq, Repr

/-- The parsed JSON payload shape for the submenu call. -/
structure SubmenuJson where
  subtopics : Option (List PyVal)
deriving DecidableEq, Repr

/-- The parsed JSON payload shape for the content call. -/
structure ContentJson where
  content_markdown : Option String
  further_topics : Option (List PyVal)
deriving DecidableEq, Repr

/-- Embedding of generate_main_menu_with_ai (main.py lines 84-172).
Returns the fallback menu and depth 2 when the client is unavailable;
otherwise validates the parsed response: the categories list must
sanitize to a non-empty list (else ValueError), and max_menu_depth is
taken from the response when it is an int but replaced by 2 whenever it
differs from 2, defaulting to 2 when missing or invalid. OpenAI errors
are re-raised as the corresponding Python exception classes. -/
def generate_main_menu_with_ai (client : Bool) (topic : String)
    (api : APIResult MainMenuJson) : Except PyExc (List String × Int) :=
  if client = false then
    .ok (["Introduction to " ++ topic, "Key Concepts in " ++ topic,
          "History of " ++ topic], 2)
  else
    match api with
    | .success none => .error .value
    | .success (some j) =>
      match j.categories with
      | none => .error .value
      | some rawItems =>
        if sanitizeItems rawItems = [] then .error .value
        else
          match j.max_menu_depth with
          | some d => .ok (sanitizeItems rawItems, if d ≠ 2 then 2 else d)
          | none => .ok (sanitizeItems rawItems, 2)
    | .badJson => .error .value
    | .authError => .error .connectionRefused
    | .rateLimitError => .error .connectionAborted
    | .apiConnectionError => .error .connection
    | .apiError => .error .runtime

/-- Embedding of generate_submenu_with_ai (main.py lines 175-230).
Returns the fallback submenu when the client is unavailable; otherwise
validates that the subtopics list sanitizes to a non-empty list. -/
def generate_submenu_with_ai (client : Bool) (topic selection : String)
    (api : APIResult SubmenuJson) : Except PyExc (List String) :=
  if client = false then
    .ok ["Subtopic 1 for " ++ selection, "Subtopic 2 for " ++ selection]
  else
    match api with
    | .success none => .error .value
    | .success (some j) =>
      match j.subtopics with
      | none => .error .value
      | some raw =>
        if sanitizeItems raw = [] then .error .value
        else .ok (sanitizeItems raw)
    | .badJson => .error .value
    | .authError => .error .connectionRefused
    | .rateLimitError => .error .connectionAborted
    | .apiConnectionError => .error .connection
    | .apiError => .error .runtime

/-- Embedding of generate_content_and_further_topics (main.py lines
233-328). Returns the fallback content when the client is unavailable;
otherwise validates that content_markdown strips to a non-empty string
and that further_topics sanitizes to a non-empty list. -/
def generate_content_and_further_topics (client : Bool) (topic : String)
    (selection_path : List String) (api : APIResult ContentJson) :
    Except PyExc (String × List String) :=
  if client = false then
    .ok ("## Fallback Content\n\nDetails about \x27"
           ++ String.intercalate " -> " selection_path
           ++ "\x27 would appear here.",
         ["Deeper Topic 1", "Deeper Topic 2"])
  else
    match api with
    | .success none => .error .value
    | .success (some j) =>
      match j.content_markdown with
      | none => .error .value
      | some mdRaw =>
        if pyStrip mdRaw = "" then .error .value
        else
          match j.further_topics with
          | none => .error .value
          | some raw =>
            if sanitizeItems raw = [] then .error .value
            else .ok (pyStrip mdRaw, sanitizeItems raw)
    | .badJson => .error .value
    | .authError => .error .connectionRefused
    | .rateLimitError => .error .connectionAborted
    | .apiConnectionError => .error .connection
    | .apiError => .error .runtime

/-- One entry of the session history: the Python code stores tagged
tuples ("topic", x) or ("menu_selection", x); the tag strings become
constructors. -/
inductive HistoryEntry where
  | topic (s : String)
  | menu_selection (s : String)
deriving DecidableEq, Repr

/-- The per-session state stored in the global sessions dictionary
(main.py lines 374-379): topic, history, current_menu and
max_menu_depth. -/
structure SessionData where
  topic : String
  history : List HistoryEntry
  current_menu : List String
  max_menu_depth : Int
deriving DecidableEq, Repr

/-- The in-memory sessions dictionary: session id to session state. -/
abbrev SessionStore := String → Option SessionData

/-- Dictionary assignment sessions[sid] = sd. -/
def storeSet (store : SessionStore) (sid : String) (sd : SessionData) :
    SessionStore :=
  fun x => if x = sid then some sd else store x

/-- A structured HTTP error: status code and the machine-readable code
from the detail payload. -/
structure ErrorResponse where
  status_code : Nat
  code : String
deriving DecidableEq, Repr

/-- The except-clause of both endpoints (main.py lines 360-366 and
470-477): map the caught Python exception class to an HTTP status and
error code. -/
def mapPyExc : PyExc → ErrorResponse
  | .connectionRefused => ⟨401, "AI_AUTH_ERROR"⟩
  | .connectionAborted => ⟨429, "AI_RATE_LIMIT"⟩
  | .connection => ⟨504, "AI_CONNECTION_ERROR"⟩
  | .value => ⟨502, "AI_BAD_RESPONSE"⟩
  | .runtime => ⟨502, "AI_API_ERROR"⟩

/-- The response model of POST /sessions (main.py lines 17-20): it
declares exactly the fields session_id and menu_items. -/
structure SessionResponse where
  session_id : String
  menu_items : List String
deriving DecidableEq, Repr

/-- The response model of POST /menus (main.py lines 27-34). -/
structure MenuResponse where
  type : String
  menu_items : List String
  content_markdown : Option String
deriving DecidableEq, Repr

/-- A JSON value, for modelling the serialized response bodies. -/
inductive JsonVal where
  | str (s : String)
  | num (n : Int)
  | arr (l : List JsonVal)
  | nullV
deriving Repr

/-- Serialization of the SessionResponse pydantic model: the response
body of a successful POST /sessions carries exactly the declared
fields, in declaration order. -/
def sessionResponseJson (r : SessionResponse) : List (String × JsonVal) :=
  [("session_id", .str r.session_id),
   ("menu_items", .arr (r.menu_items.map JsonVal.str))]

/-- Embedding of the POST /sessions endpoint create_session (main.py
lines 339-383). Returns the store (updated only on success) together
with either an error or the HTTP status 201 and the response body.
The session id (uuid4 in the source) is passed in as a parameter. -/
def create_session (client : Bool) (store : SessionStore)
    (session_id topic : String) (api : APIResult MainMenuJson) :
    SessionStore × Except ErrorResponse (Nat × SessionResponse) :=
  if client = false then
    (store, .error ⟨503, "AI_SERVICE_UNAVAILABLE"⟩)
  else
    match generate_main_menu_with_ai client topic api with
    | .error e => (store, .error (mapPyExc e))
    | .ok (main_menu_items, max_menu_depth) =>
      if main_menu_items = [] then (store, .error (mapPyExc .value))
      else
        (storeSet store session_id
          { topic := topic
            history := [.topic topic]
            current_menu := main_menu_items
            max_menu_depth := max_menu_depth },
         .ok (201, ⟨session_id, main_menu_items⟩))

/-- The selection path built at main.py line 452: the second components
of the history entries tagged menu_selection. -/
def selectionsOf (h : List HistoryEntry) : List String :=
  h.filterMap fun e =>
    match e with
    | .menu_selection s => some s
    | .topic _ => none

/-- Embedding of the POST /menus endpoint select_menu_item (main.py
lines 386-492). Looks up the session (404 if absent), validates the
selection against the current menu (400 if absent), computes
current_level = len(history), and branches: below max_menu_depth it
generates a submenu, otherwise content plus further topics; in both
branches the client check raises ConnectionAbortedError (mapped to 429)
before the generator call, and the session is mutated only after a
successful, non-empty generator result. -/
def select_menu_item (client : Bool) (store : SessionStore)
    (session_id selection : String) (subApi : APIResult SubmenuJson)
    (contApi : APIResult ContentJson) :
    SessionStore × Except ErrorResponse (Nat × MenuResponse) :=
  match store session_id with
  | none => (store, .error ⟨404, "SESSION_NOT_FOUND"⟩)
  | some session_data =>
    if selection ∈ session_data.current_menu then
      if (session_data.history.length : Int) < session_data.max_menu_depth then
        if client = false then
          (store, .error (mapPyExc .connectionAborted))
        else
          match generate_submenu_with_ai client session_data.topic selection
              subApi with
          | .error e => (store, .error (mapPyExc e))
          | .ok submenu_items =>
            if submenu_items = [] then (store, .error (mapPyExc .value))
            else
              (storeSet store session_id
                { session_data with
                    history := session_data.history
                      ++ [.menu_selection selection]
                    current_menu := submenu_items },
               .ok (200, ⟨"submenu", submenu_items, none⟩))
      else
        if client = false then
          (store, .error (mapPyExc .connectionAborted))
        else
          match generate_content_and_further_topics client session_data.topic
              (selectionsOf session_data.history ++ [selection]) contApi with
          | .error e => (store, .error (mapPyExc e))
          | .ok (content_markdown, further_topics) =>
            if content_markdown = "" ∨ further_topics = [] then
              (store, .error (mapPyExc .value))
            else
              (storeSet store session_id
                { session_data with
                    history := session_data.history
                      ++ [.menu_selection selection]
                    current_menu := further_topics },
               .ok (200, ⟨"content", further_topics, some content_markdown⟩))
    else (store, .error ⟨400, "INVALID_SELECTION"⟩)

/-- The session stores reachable by sequences of successful operations:
the empty store, plus the result of any successful create_session or
select_menu_item step on a reachable store. -/
inductive ReachableStore : SessionStore → Prop where
  | init : ReachableStore (fun _ => none)
  | create (client : Bool) (store : SessionStore) (sid topic : String)
      (api : APIResult MainMenuJson) (r : Nat × SessionResponse) :
      ReachableStore store →
      (create_session client store sid topic api).2 = .ok r →
      ReachableStore (create_session client store sid topic api).1
  | select (client : Bool) (store : SessionStore) (sid sel : String)
      (subApi : APIResult SubmenuJson) (contApi : APIResult ContentJson)
      (r : Nat × MenuResponse) :
      ReachableStore store →
      (select_menu_item client store sid sel subApi contApi).2 = .ok r →
      ReachableStore (select_menu_item client store sid sel subApi contApi).1

/-- Modelled from the spec: the full Session data model of spec section
3, needed because the GoBack operation (spec section 4.2.4) and its
companion fields currentDepth, lastContent and menuByDepth are not
implemented in src/backend/app/main.py (the repository has no /go_back
endpoint); only the spec describes them. -/
structure SpecSession where
  topic : String
  maxMenuDepth : Int
  currentDepth : Nat
  currentMenu : List String
  lastContent : Option String
  history : List HistoryEntry
  menuByDepth : Nat → Option (List String)

/-- The error taxonomy of spec section 7 for the navigation
transitions. -/
inductive SpecNavError where
  | invalidSelection
  | atRootLevel
  | stateInconsistent
deriving DecidableEq, Repr

/-- Modelled from the spec: the HTTP mapping of spec section 7 —
InvalidSelection and AtRootLevel are 400-class client errors,
StateInconsistent is a 500-class server error. -/
def specNavErrorStatus : SpecNavError → Nat
  | .invalidSelection => 400
  | .atRootLevel => 400
  | .stateInconsistent => 500

/-- Response shape of the spec navigation transitions: type, items,
optional markdown, and the resulting depth. -/
structure SpecNavResponse where
  type : String
  menu_items : List String
  content : Option String
  depth : Nat
deriving DecidableEq, Repr

/-- Modelled from the spec: the SelectMenuItem transition of spec
section 4.2.2, which the repository implements only without the
currentDepth/lastContent/menuByDepth bookkeeping. The generator results
for the step (submenu items, or markdown and further topics) are passed
as oracle arguments. -/
def selectMenuItemSpec (s : SpecSession) (selection : String)
    (genItems : List String) (genMarkdown : String)
    (genTopics : List String) :
    SpecSession × Except SpecNavError SpecNavResponse :=
  if selection ∈ s.currentMenu then
    if ((s.currentDepth + 1 : Nat) : Int) < s.maxMenuDepth then
      ({ s with
          history := s.history ++ [.menu_selection selection]
          currentMenu := genItems
          currentDepth := s.currentDepth + 1
          lastContent := none
          menuByDepth := fun d =>
            if d = s.currentDepth + 1 then some genItems
            else s.menuByDepth d },
       .ok ⟨"submenu", genItems, none, s.currentDepth + 1⟩)
    else
      ({ s with
          history := s.history ++ [.menu_selection selection]
          currentMenu := genTopics
          currentDepth := s.currentDepth + 1
          lastContent := some genMarkdown
          menuByDepth := fun d =>
            if d = s.currentDepth + 1 then some genTopics
            else s.menuByDepth d },
       .ok ⟨"content", genTopics, some genMarkdown, s.currentDepth + 1⟩)
  else (s, .error .invalidSelection)

/-- Drop the trailing Selection entry from a history if present (spec
section 4.2.4). -/
def dropTrailingSelection (h : List HistoryEntry) : List HistoryEntry :=
  match h.reverse with
  | .menu_selection _ :: rest => rest.reverse
  | _ => h

/-- Modelled from the spec: the GoBack transition of spec section
4.2.4, cache strategy. Fails with AtRootLevel at depth 0 and with
StateInconsistent when the cached menu for the previous depth is
missing; on success it restores the cached menu without any content
generator call (the function takes no generator oracle), drops the
trailing Selection history entry, and responds with submenu type, the
recovered menu and the previous depth. -/
def goBack (s : SpecSession) :
    SpecSession × Except SpecNavError SpecNavResponse :=
  if s.currentDepth = 0 then (s, .error .atRootLevel)
  else
    match s.menuByDepth (s.currentDepth - 1) with
    | none => (s, .error .stateInconsistent)
    | some menu =>
      ({ s with
          currentDepth := s.currentDepth - 1
          currentMenu := menu
          lastContent := none
          history := dropTrailingSelection s.history },
       .ok ⟨"submenu", menu, none, s.currentDepth - 1⟩)

/-- Spec-side clamping policy as the spec words it (section 4.2.1):
clamp maxDepth into the interval from 2 to 4 if out of range. Stated
here only to be compared against the behaviour of the source function
generate_main_menu_with_ai. -/
def clampMaxDepthSpec (d : Int) : Int :=
  if d < 2 then 2 else if d > 4 then 4 else d

theorem dropWhile_head_false {α : Type} (p : α → Bool) (l : List α) :
    ∀ (a : α) (t : List α), l.dropWhile p = a :: t → p a = false := by
  induction l with
  | nil => intro a t h; simp [List.dropWhile] at h
  | cons b bs ih =>
    intro a t h
    rw [List.dropWhile_cons] at h
    by_cases hb : p b = true
    · rw [if_pos hb] at h
      exact ih a t h
    · rw [if_neg hb] at h
      injection h with h1 _
      subst h1
      simpa using hb

theorem dropWhile_idem {α : Type} (p : α → Bool) (l : List α) :
    (l.dropWhile p).dropWhile p = l.dropWhile p := by
  cases h : l.dropWhile p with
  | nil => simp
  | cons a t =>
    have ha := dropWhile_head_false p l a t h
    simp [List.dropWhile_cons, ha]

theorem stripChars_head_false (l : List Char) (a : Char) (t : List Char)
    (h : stripChars l = a :: t) : isSpaceChar a = false := by
  unfold stripChars at h
  have h2 := List.takeWhile_append_dropWhile
    (p := isSpaceChar) (l := (l.dropWhile isSpaceChar).reverse)
  have h3 : l.dropWhile isSpaceChar
      = ((l.dropWhile isSpaceChar).reverse.dropWhile isSpaceChar).reverse
        ++ ((l.dropWhile isSpaceChar).reverse.takeWhile isSpaceChar).reverse := by
    have h4 := congrArg List.reverse h2
    rw [List.reverse_append, List.reverse_reverse] at h4
    exact h4.symm
  rw [h] at h3
  exact dropWhile_head_false isSpaceChar l a _ (by rw [h3]; rfl)

theorem stripChars_idem (l : List Char) :
    stripChars (stripChars l) = stripChars l := by
  cases h : stripChars l with
  | nil => rfl
  | cons a t =>
    have ha := stripChars_head_false l a t h
    have hrev : (a :: t).reverse
        = (l.dropWhile isSpaceChar).reverse.dropWhile isSpaceChar := by
      rw [← h]; unfold stripChars; rw [List.reverse_reverse]
    unfold stripChars
    rw [show (a :: t).dropWhile isSpaceChar = a :: t from by
      simp [List.dropWhile_cons, ha]]
    rw [hrev, dropWhile_idem, ← hrev, List.reverse_reverse]

theorem pyStrip_idem (s : String) : pyStrip (pyStrip s) = pyStrip s :=
  congrArg String.mk (stripChars_idem s.data)

/-- Every element a sanitize pass keeps is already stripped and
non-blank. -/
theorem sanitizeItems_mem (l : List PyVal) (e : String)
    (he : e ∈ sanitizeItems l) : pyStrip e = e ∧ e ≠ "" := by
  rw [sanitizeItems, List.mem_filterMap] at he
  obtain ⟨v, _, hve⟩ := he
  cases v with
  | other => exact absurd hve (by simp)
  | str s =>
    change (if pyStrip s = "" then none else some (pyStrip s)) = some e at hve
    by_cases h : pyStrip s = ""
    · rw [if_pos h] at hve
      exact absurd hve (by simp)
    · rw [if_neg h] at hve
      injection hve with h2
      subst h2
      exact ⟨pyStrip_idem s, h⟩

/-- With an initialized client, a successful main-menu generation
always reports depth 2, whatever the AI returned. -/
theorem generate_main_ok_depth {c : Bool} {t : String}
    {api : APIResult MainMenuJson} {items : List String} {d : Int}
    (h : generate_main_menu_with_ai c t api = .ok (items, d)) : d = 2 := by
  unfold generate_main_menu_with_ai at h
  repeat' split at h
  all_goals simp at h
  all_goals omega

/-- A successful main-menu generation with an initialized client
returns a sanitized, non-empty item list. -/
theorem generate_main_ok_items {t : String} {api : APIResult MainMenuJson}
    {items : List String} {d : Int}
    (h : generate_main_menu_with_ai true t api = .ok (items, d)) :
    ∃ raw, items = sanitizeItems raw ∧ sanitizeItems raw ≠ [] := by
  unfold generate_main_menu_with_ai at h
  rw [if_neg (by simp)] at h
  repeat' split at h
  all_goals simp only [Except.ok.injEq, Prod.mk.injEq, reduceCtorEq] at h
  all_goals exact ⟨_, h.1.symm, by assumption⟩

/-- A successful submenu generation with an initialized client returns
a sanitized, non-empty item list. -/
theorem generate_submenu_ok_items {t sel : String}
    {api : APIResult SubmenuJson} {items : List String}
    (h : generate_submenu_with_ai true t sel api = .ok items) :
    ∃ raw, items = sanitizeItems raw ∧ sanitizeItems raw ≠ [] := by
  unfold generate_submenu_with_ai at h
  rw [if_neg (by simp)] at h
  repeat' split at h
  all_goals simp only [Except.ok.injEq, reduceCtorEq] at h
  all_goals exact ⟨_, h.symm, by assumption⟩

/-- A successful content generation with an initialized client returns
a non-empty stripped markdown string and a sanitized, non-empty
further-topics list. -/
theorem generate_content_ok {t : String} {path : List String}
    {api : APIResult ContentJson} {md : String} {topics : List String}
    (h : generate_content_and_further_topics true t path api
      = .ok (md, topics)) :
    md ≠ "" ∧ ∃ raw, topics = sanitizeItems raw ∧ sanitizeItems raw ≠ [] := by
  unfold generate_content_and_further_topics at h
  rw [if_neg (by simp)] at h
  repeat' split at h
  all_goals simp only [Except.ok.injEq, Prod.mk.injEq, reduceCtorEq] at h
  all_goals refine ⟨?_, _, h.2.symm, by assumption⟩
  all_goals rw [← h.1]
  all_goals assumption

/-- Sanitized menus are non-empty lists of stripped, non-blank
strings. -/
theorem generate_submenu_ok_menuOk {t sel : String}
    {api : APIResult SubmenuJson} {items : List String}
    (h : generate_submenu_with_ai true t sel api = .ok items) :
    items ≠ [] ∧ ∀ e ∈ items, pyStrip e = e ∧ e ≠ "" := by
  obtain ⟨raw, h1, h2⟩ := generate_submenu_ok_items h
  subst h1
  exact ⟨h2, fun e he => sanitizeItems_mem raw e he⟩

theorem generate_main_ok_menuOk {t : String} {api : APIResult MainMenuJson}
    {items : List String} {d : Int}
    (h : generate_main_menu_with_ai true t api = .ok (items, d)) :
    items ≠ [] ∧ ∀ e ∈ items, pyStrip e = e ∧ e ≠ "" := by
  obtain ⟨raw, h1, h2⟩ := generate_main_ok_items h
  subst h1
  exact ⟨h2, fun e he => sanitizeItems_mem raw e he⟩

theorem generate_content_ok_menuOk {t : String} {path : List String}
    {api : APIResult ContentJson} {md : String} {topics : List String}
    (h : generate_content_and_further_topics true t path api
      = .ok (md, topics)) :
    md ≠ "" ∧ topics ≠ [] ∧ ∀ e ∈ topics, pyStrip e = e ∧ e ≠ "" := by
  obtain ⟨hmd, raw, h1, h2⟩ := generate_content_ok h
  subst h1
  exact ⟨hmd, h2, fun e he => sanitizeItems_mem raw e he⟩

/-- A failing create_session leaves the session store untouched: the
store is written only after a successful, validated generator call. -/
theorem create_session_error_store {c : Bool} {store : SessionStore}
    {sid t : String} {api : APIResult MainMenuJson} {e : ErrorResponse}
    (h : (create_session c store sid t api).2 = .error e) :
    (create_session c store sid t api).1 = store := by
  revert h
  unfold create_session
  repeat' split
  all_goals intro h
  all_goals first | rfl | simp at h

/-- A failing select_menu_item leaves the session store untouched. -/
theorem select_menu_item_error_store {c : Bool} {store : SessionStore}
    {sid sel : String} {sApi : APIResult SubmenuJson}
    {cApi : APIResult ContentJson} {e : ErrorResponse}
    (h : (select_menu_item c store sid sel sApi cApi).2 = .error e) :
    (select_menu_item c store sid sel sApi cApi).1 = store := by
  revert h
  unfold select_menu_item
  repeat' split
  all_goals intro h
  all_goals first | rfl | simp at h

/-- Inversion of a successful create_session: the client was
initialized, the generator succeeded with a non-empty menu, and the
result stores the fresh session and returns 201 with the session id
and the menu. -/
theorem create_session_ok_inv {c : Bool} {store : SessionStore}
    {sid t : String} {api : APIResult MainMenuJson}
    {r : Nat × SessionResponse}
    (h : (create_session c store sid t api).2 = .ok r) :
    ∃ items d, generate_main_menu_with_ai true t api = .ok (items, d)
      ∧ items ≠ []
      ∧ create_session c store sid t api
          = (storeSet store sid ⟨t, [.topic t], items, d⟩,
             .ok (201, ⟨sid, items⟩))
      ∧ r = (201, ⟨sid, items⟩) := by
  cases c with
  | false => unfold create_session at h; simp at h
  | true =>
    unfold create_session at h
    rw [if_neg (by simp)] at h
    cases hg : generate_main_menu_with_ai true t api with
    | error e => rw [hg] at h; simp at h
    | ok p =>
      obtain ⟨items, d⟩ := p
      rw [hg] at h
      simp only [] at h
      by_cases hne : items = []
      · rw [if_pos hne] at h; simp at h
      · rw [if_neg hne] at h
        simp only [Except.ok.injEq] at h
        refine ⟨items, d, rfl, hne, ?_, h.symm⟩
        unfold create_session
        rw [if_neg (by simp), hg]
        simp only []
        rw [if_neg hne]

/-- Computation of the submenu branch of select_menu_item: existing
session, valid selection, level below max depth, successful submenu
generation. -/
theorem select_menu_item_submenu_eq {store : SessionStore}
    {sid sel : String} {sd : SessionData} {sApi : APIResult SubmenuJson}
    {cApi : APIResult ContentJson} {items : List String}
    (hs : store sid = some sd) (hm : sel ∈ sd.current_menu)
    (hl : (sd.history.length : Int) < sd.max_menu_depth)
    (hg : generate_submenu_with_ai true sd.topic sel sApi = .ok items)
    (hne : items ≠ []) :
    select_menu_item true store sid sel sApi cApi
      = (storeSet store sid
          { sd with
              history := sd.history ++ [.menu_selection sel]
              current_menu := items },
         .ok (200, ⟨"submenu", items, none⟩)) := by
  unfold select_menu_item
  rw [hs]
  simp only []
  rw [if_pos hm, if_pos hl, if_neg (by simp), hg]
  simp only []
  rw [if_neg hne]

/-- Computation of the content branch of select_menu_item: existing
session, valid selection, level at or above max depth, successful
content generation. -/
theorem select_menu_item_content_eq {store : SessionStore}
    {sid sel : String} {sd : SessionData} {sApi : APIResult SubmenuJson}
    {cApi : APIResult ContentJson} {md : String} {topics : List String}
    (hs : store sid = some sd) (hm : sel ∈ sd.current_menu)
    (hl : ¬ ((sd.history.length : Int) < sd.max_menu_depth))
    (hg : generate_content_and_further_topics true sd.topic
      (selectionsOf sd.history ++ [sel]) cApi = .ok (md, topics))
    (hmd : md ≠ "") (ht : topics ≠ []) :
    select_menu_item true store sid sel sApi cApi
      = (storeSet store sid
          { sd with
              history := sd.history ++ [.menu_selection sel]
              current_menu := topics },
         .ok (200, ⟨"content", topics, some md⟩)) := by
  unfold select_menu_item
  rw [hs]
  simp only []
  rw [if_pos hm, if_neg hl, if_neg (by simp), hg]
  simp only []
  rw [if_neg (not_or.mpr ⟨hmd, ht⟩)]

/-- Inversion of a successful select_menu_item: the session existed,
the selection was valid, and the store update appends the selection to
the history and replaces the current menu with a non-empty list of
stripped non-blank strings. -/
theorem select_menu_item_ok_inv {c : Bool} {store : SessionStore}
    {sid sel : String} {sApi : APIResult SubmenuJson}
    {cApi : APIResult ContentJson} {r : Nat × MenuResponse}
    (h : (select_menu_item c store sid sel sApi cApi).2 = .ok r) :
    ∃ sd newMenu, store sid = some sd ∧ sel ∈ sd.current_menu
      ∧ newMenu ≠ [] ∧ (∀ e ∈ newMenu, pyStrip e = e ∧ e ≠ "")
      ∧ (select_menu_item c store sid sel sApi cApi).1
          = storeSet store sid
              { sd with
                  history := sd.history ++ [.menu_selection sel]
                  current_menu := newMenu } := by
  unfold select_menu_item at h
  split at h
  next hs => simp at h
  next sd hs =>
    split at h
    · rename_i hm
      split at h
      · rename_i hl
        split at h
        · simp at h
        · rename_i hc
          have hct : c = true := by
            cases c with
            | false => exact absurd rfl hc
            | true => rfl
          subst hct
          split at h
          next e hg => simp at h
          next items hg =>
            split at h
            · simp at h
            · rename_i hne
              have hmo := generate_submenu_ok_menuOk hg
              exact ⟨sd, items, hs, hm, hmo.1, hmo.2,
                by rw [select_menu_item_submenu_eq hs hm hl hg hmo.1]⟩
      · rename_i hl
        split at h
        · simp at h
        · rename_i hc
          have hct : c = true := by
            cases c with
            | false => exact absurd rfl hc
            | true => rfl
          subst hct
          split at h
          next e hg => simp at h
          next md topics hg =>
            split at h
            · simp at h
            · have hmo := generate_content_ok_menuOk hg
              exact ⟨sd, topics, hs, hm, hmo.2.1, hmo.2.2,
                by rw [select_menu_item_content_eq hs hm hl hg hmo.1 hmo.2.1]⟩
    · simp at h

/-- C1: for every /menus request on an existing session with a
selection present in the current menu, with nextDepth = currentDepth +
1 where currentDepth is the number of Selection entries in the history
(the code computes current_level = len(history), which equals
nextDepth for a well-formed history — hypothesis hwf): if nextDepth <
maxMenuDepth the operation requests a submenu from the generator,
appends the selection to the history, installs the submenu as the
current menu and responds 200 with type submenu and the items; if
nextDepth >= maxMenuDepth it requests content, appends the selection,
installs the further-topics list as the current menu and responds 200
with type content carrying the markdown and the further topics. -/
theorem select_menu_item_forward_nav
    (store : SessionStore) (sid sel : String) (sd : SessionData)
    (sApi : APIResult SubmenuJson) (cApi : APIResult ContentJson)
    (items : List String) (md : String) (topics : List String)
    (hs : store sid = some sd) (hm : sel ∈ sd.current_menu)
    (hwf : sd.history.length = (selectionsOf sd.history).length + 1)
    (hsub : generate_submenu_with_ai true sd.topic sel sApi = .ok items)
    (hcont : generate_content_and_further_topics true sd.topic
      (selectionsOf sd.history ++ [sel]) cApi = .ok (md, topics)) :
    ((((selectionsOf sd.history).length + 1 : Int) < sd.max_menu_depth →
      select_menu_item true store sid sel sApi cApi
        = (storeSet store sid
            { sd with
                history := sd.history ++ [.menu_selection sel]
                current_menu := items },
           .ok (200, ⟨"submenu", items, none⟩)))
     ∧ (¬ (((selectionsOf sd.history).length + 1 : Int)
            < sd.max_menu_depth) →
      select_menu_item true store sid sel sApi cApi
        = (storeSet store sid
            { sd with
                history := sd.history ++ [.menu_selection sel]
                current_menu := topics },
           .ok (200, ⟨"content", topics, some md⟩)))) := by
  have hlen : (sd.history.length : Int)
      = ((selectionsOf sd.history).length : Int) + 1 := by
    exact_mod_cast hwf
  constructor
  · intro hlt
    exact select_menu_item_submenu_eq hs hm (by rw [hlen]; exact_mod_cast hlt)
      hsub (generate_submenu_ok_menuOk hsub).1
  · intro hge
    have hmo := generate_content_ok_menuOk hcont
    refine select_menu_item_content_eq hs hm ?_ hcont hmo.1 hmo.2.1
    rw [hlen]
    exact_mod_cast hge

/-- C2: failures never mutate the session store. First two conjuncts:
whenever either endpoint returns an error, the store it returns is
exactly the input store (so a failed /sessions stores no entry and a
failed /menus leaves history and current menu unchanged). Last two
conjuncts: a failing generator call surfaces the classified error code
for the caught exception class while leaving the store untouched. -/
theorem no_state_mutation_on_failure
    (c : Bool) (store : SessionStore) (sid topic sid2 sel : String)
    (mApi : APIResult MainMenuJson) (sApi : APIResult SubmenuJson)
    (cApi : APIResult ContentJson) (e1 e2 : ErrorResponse)
    (sd : SessionData) (ex ex2 : PyExc)
    (h1 : (create_session c store sid topic mApi).2 = .error e1)
    (h2 : (select_menu_item c store sid2 sel sApi cApi).2 = .error e2)
    (hg : generate_main_menu_with_ai true topic mApi = .error ex)
    (hs : store sid2 = some sd) (hm : sel ∈ sd.current_menu)
    (hl : (sd.history.length : Int) < sd.max_menu_depth)
    (hg2 : generate_submenu_with_ai true sd.topic sel sApi = .error ex2) :
    (create_session c store sid topic mApi).1 = store
    ∧ (select_menu_item c store sid2 sel sApi cApi).1 = store
    ∧ create_session true store sid topic mApi
        = (store, .error (mapPyExc ex))
    ∧ select_menu_item true store sid2 sel sApi cApi
        = (store, .error (mapPyExc ex2)) := by
  refine ⟨create_session_error_store h1, select_menu_item_error_store h2,
    ?_, ?_⟩
  · unfold create_session
    rw [if_neg (by simp), hg]
  · unfold select_menu_item
    rw [hs]
    simp only []
    rw [if_pos hm, if_pos hl, if_neg (by simp), hg2]

/-- C3: a /menus request on an existing session whose selection is not
in the current menu fails with HTTP 400 and code INVALID_SELECTION and
returns the store unchanged. -/
theorem invalid_selection_rejected
    (c : Bool) (store : SessionStore) (sid sel : String) (sd : SessionData)
    (sApi : APIResult SubmenuJson) (cApi : APIResult ContentJson)
    (hs : store sid = some sd) (hm : sel ∉ sd.current_menu) :
    select_menu_item c store sid sel sApi cApi
      = (store, .error ⟨400, "INVALID_SELECTION"⟩) := by
  unfold select_menu_item
  rw [hs]
  simp only []
  rw [if_neg hm]

/-- C10: with the OpenAI client uninitialized, a /menus request on an
existing session with a valid selection fails with HTTP 429 and code
AI_RATE_LIMIT (the very mapping used for ConnectionAbortedError, the
rate-limit class) leaving the store unchanged, whereas /sessions in
the same situation fails up front with HTTP 503 and code
AI_SERVICE_UNAVAILABLE. -/
theorem client_unavailable_status_codes
    (store : SessionStore) (sid sel sid2 topic : String) (sd : SessionData)
    (sApi : APIResult SubmenuJson) (cApi : APIResult ContentJson)
    (mApi : APIResult MainMenuJson)
    (hs : store sid = some sd) (hm : sel ∈ sd.current_menu) :
    select_menu_item false store sid sel sApi cApi
      = (store, .error ⟨429, "AI_RATE_LIMIT"⟩)
    ∧ create_session false store sid2 topic mApi
      = (store, .error ⟨503, "AI_SERVICE_UNAVAILABLE"⟩)
    ∧ mapPyExc .connectionAborted = ⟨429, "AI_RATE_LIMIT"⟩ := by
  refine ⟨?_, rfl, rfl⟩
  unfold select_menu_item
  rw [hs]
  simp only []
  rw [if_pos hm]
  split
  all_goals rw [if_pos trivial]
  all_goals rfl

/-- C4 counterexample: the generator returns max_menu_depth 3, which is
inside the range from 2 to 4, so the clamping policy the claim states
would keep it at 3; the code instead forces it to 2 (main.py line
149-151 replaces every value different from 2). -/
theorem max_depth_not_clamped_cex :
    generate_main_menu_with_ai true "T"
        (.success (some ⟨some [.str "A"], some 3⟩)) = .ok (["A"], 2)
    ∧ clampMaxDepthSpec 3 = 3
    ∧ (2 : Int) ≠ 3 := by
  refine ⟨rfl, rfl, by decide⟩

/-- C4 amended: at session creation the maxMenuDepth value obtained
from the content generator is replaced by 2 whenever it differs from 2
(not clamped into the range from 2 to 4), and defaults to 2 when the
value is missing or invalid; the stored maxMenuDepth is therefore
always exactly 2, which in particular lies between 2 and 4. -/
theorem max_depth_always_two
    (c : Bool) (t : String) (api : APIResult MainMenuJson)
    (items : List String) (d : Int)
    (h : generate_main_menu_with_ai c t api = .ok (items, d)) :
    d = 2 ∧ 2 ≤ d ∧ d ≤ 4 := by
  have h2 := generate_main_ok_depth h
  exact ⟨h2, by omega, by omega⟩

/-- Witness for the C4 amended theorem at a concrete input. -/
theorem max_depth_always_two_witness :
    (2 : Int) = 2 ∧ (2 : Int) ≤ 2 ∧ (2 : Int) ≤ 4 :=
  max_depth_always_two true "T" (.success (some ⟨some [.str "A"], some 2⟩))
    ["A"] 2 rfl

/-- C9 counterexample: a successful POST /sessions does return 201,
but its response body carries exactly the fields session_id and
menu_items — there are no type, content, current_depth or
max_menu_depth fields, contrary to the claim. -/
theorem session_response_fields_cex :
    (create_session true (fun _ => none) "s1" "T"
        (.success (some ⟨some [.str "A"], some 2⟩))).2
      = .ok (201, ⟨"s1", ["A"]⟩)
    ∧ (sessionResponseJson ⟨"s1", ["A"]⟩).map Prod.fst
        = ["session_id", "menu_items"]
    ∧ "type" ∉ (sessionResponseJson ⟨"s1", ["A"]⟩).map Prod.fst
    ∧ "content" ∉ (sessionResponseJson ⟨"s1", ["A"]⟩).map Prod.fst
    ∧ "current_depth" ∉ (sessionResponseJson ⟨"s1", ["A"]⟩).map Prod.fst
    ∧ "max_menu_depth" ∉ (sessionResponseJson ⟨"s1", ["A"]⟩).map Prod.fst
    := by
  refine ⟨rfl, rfl, ?_, ?_, ?_, ?_⟩ <;> decide

/-- C9 amended: a successful POST /sessions request returns HTTP 201
with a response containing exactly the fields session_id and
menu_items. -/
theorem session_response_fields
    (c : Bool) (store : SessionStore) (sid t : String)
    (api : APIResult MainMenuJson) (r : Nat × SessionResponse)
    (h : (create_session c store sid t api).2 = .ok r) :
    r.1 = 201
    ∧ (sessionResponseJson r.2).map Prod.fst
        = ["session_id", "menu_items"] := by
  obtain ⟨items, d, _, _, _, hr⟩ := create_session_ok_inv h
  subst hr
  exact ⟨rfl, rfl⟩

/-- Witness for the C9 amended theorem at a concrete input. -/
theorem session_response_fields_witness :
    ((201, ⟨"s1", ["A"]⟩) : Nat × SessionResponse).1 = 201
    ∧ (sessionResponseJson ((201,
        (⟨"s1", ["A"]⟩ : SessionResponse)) : Nat × SessionResponse).2).map
          Prod.fst = ["session_id", "menu_items"] :=
  session_response_fields true (fun _ => none) "s1" "T"
    (.success (some ⟨some [.str "A"], some 2⟩)) (201, ⟨"s1", ["A"]⟩) rfl

theorem selectionsOf_append (a b : List HistoryEntry) :
    selectionsOf (a ++ b) = selectionsOf a ++ selectionsOf b := by
  simp [selectionsOf, List.filterMap_append]

theorem selectionsOf_single_sel (s : String) :
    selectionsOf [HistoryEntry.menu_selection s] = [s] := rfl

/-- C5 amended: after any sequence of successful operations, the
current menu of every stored session is a non-empty list of strings
each of which is strip-fixed and non-empty — hence non-blank.
Distinctness, however, is not guaranteed (see the counterexample): the
code never deduplicates generator output. -/
theorem current_menu_nonblank_invariant
    (store : SessionStore) (hr : ReachableStore store) :
    ∀ sid sd, store sid = some sd →
      sd.current_menu ≠ []
      ∧ ∀ e ∈ sd.current_menu, pyStrip e = e ∧ e ≠ "" := by
  induction hr with
  | init => intro sid sd h; exact absurd h (by simp)
  | create c s sid0 t api r hrs hok ih =>
    intro sid sd h
    obtain ⟨items, d, hg, hne, heq, hrr⟩ := create_session_ok_inv hok
    rw [heq] at h
    simp only [storeSet] at h
    by_cases hsid : sid = sid0
    · rw [if_pos hsid] at h
      injection h with h2
      subst h2
      exact ⟨hne, (generate_main_ok_menuOk hg).2⟩
    · rw [if_neg hsid] at h
      exact ih sid sd h
  | select c s sid0 sel sApi cApi r hrs hok ih =>
    intro sid sd h
    obtain ⟨sd0, newMenu, hs0, hm0, hne, helems, heq⟩ :=
      select_menu_item_ok_inv hok
    rw [heq] at h
    simp only [storeSet] at h
    by_cases hsid : sid = sid0
    · rw [if_pos hsid] at h
      injection h with h2
      subst h2
      exact ⟨hne, helems⟩
    · rw [if_neg hsid] at h
      exact ih sid sd h

/-- C6: after any sequence of successful operations, every stored
session has a history whose first entry is the unique Topic entry
holding the session topic, all later entries are Selection entries
(one per successful forward navigation), and the current depth — the
derived quantity len(history) - 1, the code branching on current_level
= len(history) — equals the number of Selection entries. -/
theorem history_structure_invariant
    (store : SessionStore) (hr : ReachableStore store) :
    ∀ sid sd, store sid = some sd →
      (∃ tail, sd.history = HistoryEntry.topic sd.topic :: tail
        ∧ ∀ e ∈ tail, ∃ x, e = HistoryEntry.menu_selection x)
      ∧ sd.history.length - 1 = (selectionsOf sd.history).length := by
  induction hr with
  | init => intro sid sd h; exact absurd h (by simp)
  | create c s sid0 t api r hrs hok ih =>
    intro sid sd h
    obtain ⟨items, d, hg, hne, heq, hrr⟩ := create_session_ok_inv hok
    rw [heq] at h
    simp only [storeSet] at h
    by_cases hsid : sid = sid0
    · rw [if_pos hsid] at h
      injection h with h2
      subst h2
      exact ⟨⟨[], rfl, by simp⟩, rfl⟩
    · rw [if_neg hsid] at h
      exact ih sid sd h
  | select c s sid0 sel sApi cApi r hrs hok ih =>
    intro sid sd h
    obtain ⟨sd0, newMenu, hs0, hm0, hne, helems, heq⟩ :=
      select_menu_item_ok_inv hok
    rw [heq] at h
    simp only [storeSet] at h
    by_cases hsid : sid = sid0
    · rw [if_pos hsid] at h
      injection h with h2
      subst h2
      obtain ⟨⟨tail, hh, htail⟩, hlen⟩ := ih sid0 sd0 hs0
      constructor
      · refine ⟨tail ++ [.menu_selection sel], ?_, ?_⟩
        · simp only []
          rw [hh]
          rfl
        · intro e he
          rcases List.mem_append.mp he with h1 | h1
          · exact htail e h1
          · rw [List.mem_singleton] at h1
            exact ⟨sel, h1⟩
      · simp only []
        rw [selectionsOf_append, selectionsOf_single_sel]
        have hpos : sd0.history.length ≠ 0 := by
          rw [hh]; simp
        simp only [List.length_append, List.length_singleton]
        omega
    · rw [if_neg hsid] at h
      exact ih sid sd h

/-- Concrete main-menu API outcome used by the witnesses. -/
def mainApiW : APIResult MainMenuJson :=
  .success (some ⟨some [.str "Formation"], some 2⟩)

/-- Store after one successful create_session on the empty store. -/
def storeC1 : SessionStore :=
  (create_session true (fun _ => none) "s1" "T" mainApiW).1

/-- Submenu API outcome whose subtopics list contains a duplicate. -/
def subApiDup : APIResult SubmenuJson :=
  .success (some ⟨some [.str "A", .str "A"]⟩)

/-- Store after create_session followed by one successful submenu
select_menu_item whose generator returned a duplicated list. -/
def storeC2 : SessionStore :=
  (select_menu_item true storeC1 "s1" "Formation" subApiDup
    APIResult.badJson).1

theorem reachable_storeC1 : ReachableStore storeC1 :=
  ReachableStore.create true (fun _ => none) "s1" "T" mainApiW
    (201, ⟨"s1", ["Formation"]⟩) ReachableStore.init rfl

theorem reachable_storeC2 : ReachableStore storeC2 :=
  ReachableStore.select true storeC1 "s1" "Formation" subApiDup
    APIResult.badJson (200, ⟨"submenu", ["A", "A"], none⟩)
    reachable_storeC1 rfl

/-- C5 counterexample: a session store reached by two successful
operations (create, then select whose submenu generator returned the
list with "A" twice) holds a session whose current menu is the
duplicated list, which is not pairwise distinct: the code validates
non-emptiness and blanks but never deduplicates. -/
theorem current_menu_distinct_cex :
    ReachableStore storeC2
    ∧ storeC2 "s1" = some ⟨"T",
        [.topic "T", .menu_selection "Formation"], ["A", "A"], 2⟩
    ∧ ¬ (["A", "A"] : List String).Nodup :=
  ⟨reachable_storeC2, rfl, by decide⟩

/-- Witness for the C5 amended theorem at a concrete reachable
store. -/
theorem current_menu_nonblank_invariant_witness :
    (⟨"T", [.topic "T"], ["Formation"], 2⟩ : SessionData).current_menu ≠ []
    ∧ ∀ e ∈ (⟨"T", [.topic "T"], ["Formation"], 2⟩
        : SessionData).current_menu, pyStrip e = e ∧ e ≠ "" :=
  current_menu_nonblank_invariant storeC1 reachable_storeC1 "s1"
    ⟨"T", [.topic "T"], ["Formation"], 2⟩ rfl

/-- Witness for the C6 theorem at a concrete reachable store. -/
theorem history_structure_invariant_witness :
    (∃ tail, (⟨"T", [.topic "T"], ["Formation"], 2⟩
          : SessionData).history
        = HistoryEntry.topic (⟨"T", [.topic "T"], ["Formation"], 2⟩
            : SessionData).topic :: tail
      ∧ ∀ e ∈ tail, ∃ x, e = HistoryEntry.menu_selection x)
    ∧ (⟨"T", [.topic "T"], ["Formation"], 2⟩
          : SessionData).history.length - 1
      = (selectionsOf (⟨"T", [.topic "T"], ["Formation"], 2⟩
          : SessionData).history).length :=
  history_structure_invariant storeC1 reachable_storeC1 "s1"
    ⟨"T", [.topic "T"], ["Formation"], 2⟩ rfl

theorem dropTrailingSelection_append (h : List HistoryEntry) (s : String) :
    dropTrailingSelection (h ++ [HistoryEntry.menu_selection s]) = h := by
  unfold dropTrailingSelection
  rw [show (h ++ [HistoryEntry.menu_selection s]).reverse
      = HistoryEntry.menu_selection s :: h.reverse from by simp]
  simp only []
  exact List.reverse_reverse h

/-- Computation of a successful GoBack: above the root with the cached
previous-depth menu present, GoBack restores that menu, decrements the
depth, clears the content and drops the trailing Selection entry. -/
theorem goBack_eq (s : SpecSession) (menu : List String)
    (h0 : ¬ s.currentDepth = 0)
    (hm : s.menuByDepth (s.currentDepth - 1) = some menu) :
    goBack s
      = ({ s with
            currentDepth := s.currentDepth - 1
            currentMenu := menu
            lastContent := none
            history := dropTrailingSelection s.history },
         .ok ⟨"submenu", menu, none, s.currentDepth - 1⟩) := by
  unfold goBack
  rw [if_neg h0, hm]

/-- C7: GoBack at the root (currentDepth 0) always fails with
AtRootLevel, which maps to a 400 client error, and returns the session
unchanged (modelled from the spec: the repository has no /go_back
endpoint, so the GoBack transition of spec section 4.2.4 is settled
against the spec model). -/
theorem go_back_at_root_fails (s : SpecSession)
    (h : s.currentDepth = 0) :
    goBack s = (s, .error .atRootLevel)
    ∧ specNavErrorStatus .atRootLevel = 400 := by
  unfold goBack
  rw [if_pos h]
  exact ⟨rfl, rfl⟩

/-- Concrete spec session at the root, for witnesses. -/
def specSessionW : SpecSession :=
  { topic := "T"
    maxMenuDepth := 2
    currentDepth := 0
    currentMenu := ["A"]
    lastContent := none
    history := [.topic "T"]
    menuByDepth := fun d => if d = 0 then some ["A"] else none }

/-- Witness for C7 at a concrete root session. -/
theorem go_back_at_root_fails_witness :
    goBack specSessionW = (specSessionW, .error .atRootLevel)
    ∧ specNavErrorStatus .atRootLevel = 400 :=
  go_back_at_root_fails specSessionW rfl

/-- C8: SelectMenuItem followed immediately by GoBack (cache strategy,
modelled from the spec since the repository implements no /go_back
endpoint) restores currentMenu, currentDepth and history to exactly
their pre-selection values, for any generator outcome of the selection
step; GoBack itself takes no generator oracle, so no content-generator
call happens during it. Hypothesis hcache is the menuByDepth cache
invariant at the current depth, which holds in every state the spec
transitions produce. -/
theorem select_then_go_back_roundtrip
    (s : SpecSession) (sel : String) (genItems : List String)
    (genMarkdown : String) (genTopics : List String)
    (hsel : sel ∈ s.currentMenu)
    (hcache : s.menuByDepth s.currentDepth = some s.currentMenu) :
    (∃ r1, (selectMenuItemSpec s sel genItems genMarkdown genTopics).2
      = .ok r1)
    ∧ (goBack (selectMenuItemSpec s sel genItems genMarkdown
        genTopics).1).1.currentMenu = s.currentMenu
    ∧ (goBack (selectMenuItemSpec s sel genItems genMarkdown
        genTopics).1).1.currentDepth = s.currentDepth
    ∧ (goBack (selectMenuItemSpec s sel genItems genMarkdown
        genTopics).1).1.history = s.history
    ∧ (goBack (selectMenuItemSpec s sel genItems genMarkdown
        genTopics).1).2
      = .ok ⟨"submenu", s.currentMenu, none, s.currentDepth⟩ := by
  unfold selectMenuItemSpec
  rw [if_pos hsel]
  by_cases hd : ((s.currentDepth + 1 : Nat) : Int) < s.maxMenuDepth
  · rw [if_pos hd]
    simp only []
    rw [goBack_eq _ s.currentMenu (by simp) (by
      simp only []
      rw [if_neg (by omega)]
      exact hcache)]
    exact ⟨⟨_, rfl⟩, rfl, rfl,
      dropTrailingSelection_append s.history sel, rfl⟩
  · rw [if_neg hd]
    simp only []
    rw [goBack_eq _ s.currentMenu (by simp) (by
      simp only []
      rw [if_neg (by omega)]
      exact hcache)]
    exact ⟨⟨_, rfl⟩, rfl, rfl,
      dropTrailingSelection_append s.history sel, rfl⟩

/-- Witness for C8 at a concrete session and selection. -/
theorem select_then_go_back_roundtrip_witness :
    (∃ r1, (selectMenuItemSpec specSessionW "A" ["B"] "M" ["C"]).2
      = .ok r1)
    ∧ (goBack (selectMenuItemSpec specSessionW "A" ["B"] "M"
        ["C"]).1).1.currentMenu = specSessionW.currentMenu
    ∧ (goBack (selectMenuItemSpec specSessionW "A" ["B"] "M"
        ["C"]).1).1.currentDepth = specSessionW.currentDepth
    ∧ (goBack (selectMenuItemSpec specSessionW "A" ["B"] "M"
        ["C"]).1).1.history = specSessionW.history
    ∧ (goBack (selectMenuItemSpec specSessionW "A" ["B"] "M"
        ["C"]).1).2
      = .ok ⟨"submenu", specSessionW.currentMenu,
          none, specSessionW.currentDepth⟩ :=
  select_then_go_back_roundtrip specSessionW "A" ["B"] "M" ["C"]
    (by decide) rfl

/-- Concrete session used by the endpoint witnesses. -/
def sdW : SessionData := ⟨"T", [.topic "T"], ["A"], 2⟩

/-- Concrete one-session store used by the endpoint witnesses. -/
def storeW : SessionStore := fun x => if x = "s1" then some sdW else none

/-- Concrete submenu API outcome used by the witnesses. -/
def subApiW : APIResult SubmenuJson := .success (some ⟨some [.str "B"]⟩)

/-- Concrete content API outcome used by the witnesses. -/
def contApiW : APIResult ContentJson :=
  .success (some ⟨some "M", some [.str "C"]⟩)

/-- Witness for C1 at a concrete session, selection and generator
outcomes. -/
theorem select_menu_item_forward_nav_witness :
    ((((selectionsOf sdW.history).length + 1 : Int) < sdW.max_menu_depth →
      select_menu_item true storeW "s1" "A" subApiW contApiW
        = (storeSet storeW "s1"
            { sdW with
                history := sdW.history ++ [.menu_selection "A"]
                current_menu := ["B"] },
           .ok (200, ⟨"submenu", ["B"], none⟩)))
     ∧ (¬ (((selectionsOf sdW.history).length + 1 : Int)
            < sdW.max_menu_depth) →
      select_menu_item true storeW "s1" "A" subApiW contApiW
        = (storeSet storeW "s1"
            { sdW with
                history := sdW.history ++ [.menu_selection "A"]
                current_menu := ["C"] },
           .ok (200, ⟨"content", ["C"], some "M"⟩)))) :=
  select_menu_item_forward_nav storeW "s1" "A" sdW subApiW contApiW
    ["B"] "M" ["C"] rfl (by decide) rfl rfl rfl

/-- Witness for C2 at concrete failing generator outcomes. -/
theorem no_state_mutation_on_failure_witness :
    (create_session true storeW "s2" "T"
        (APIResult.authError : APIResult MainMenuJson)).1 = storeW
    ∧ (select_menu_item true storeW "s1" "A"
        (APIResult.authError : APIResult SubmenuJson)
        (APIResult.badJson : APIResult ContentJson)).1 = storeW
    ∧ create_session true storeW "s2" "T"
        (APIResult.authError : APIResult MainMenuJson)
        = (storeW, .error (mapPyExc .connectionRefused))
    ∧ select_menu_item true storeW "s1" "A"
        (APIResult.authError : APIResult SubmenuJson)
        (APIResult.badJson : APIResult ContentJson)
        = (storeW, .error (mapPyExc .connectionRefused)) :=
  no_state_mutation_on_failure true storeW "s2" "T" "s1" "A"
    APIResult.authError APIResult.authError APIResult.badJson
    ⟨401, "AI_AUTH_ERROR"⟩ ⟨401, "AI_AUTH_ERROR"⟩ sdW
    .connectionRefused .connectionRefused
    rfl rfl rfl rfl (by decide) (by decide) rfl

/-- Witness for C3 at a concrete invalid selection. -/
theorem invalid_selection_rejected_witness :
    select_menu_item true storeW "s1" "zz" subApiW contApiW
      = (storeW, .error ⟨400, "INVALID_SELECTION"⟩) :=
  invalid_selection_rejected true storeW "s1" "zz" sdW subApiW contApiW
    rfl (by decide)

/-- Witness for C10 at a concrete session with a valid selection. -/
theorem client_unavailable_status_codes_witness :
    select_menu_item false storeW "s1" "A" subApiW contApiW
      = (storeW, .error ⟨429, "AI_RATE_LIMIT"⟩)
    ∧ create_session false storeW "s2" "T" mainApiW
      = (storeW, .error ⟨503, "AI_SERVICE_UNAVAILABLE"⟩)
    ∧ mapPyExc .connectionAborted = ⟨429, "AI_RATE_LIMIT"⟩ :=
  client_unavailable_status_codes storeW "s1" "A" "s2" "T" sdW
    subApiW contApiW mainApiW rfl (by decide)
